import Mathlib

/-!
Verification of the analytics aggregation pipeline of the repository
(`analytics.py` and `analytics_tools.py`), shallowly embedded in Lean 4.

Modelling conventions:
* Timestamps are integers counting nanoseconds since the Unix epoch
  (pandas `Timestamp` resolution).  A value that failed to parse
  (`pd.to_datetime(..., errors='coerce')` returning `NaT`) is `none`;
  a parsed value is `some t`.  The ticket records handed to the engine by
  `JiraAgent.search_tickets` carry their timestamps already in this
  post-parse form.
* A pandas `DataFrame` of ticket rows is a `List` of row structures.
* A Python dict report that is `{}` on empty input is `Option reportType`
  with `none` standing for the empty dict.
* Python/numpy floats are modelled as exact rationals (`Rat`).
* Each aggregate report function returns the pair of its report and the
  state of the dataframe argument after the call, so that in-place column
  assignments performed by the source are visible in the embedding.
-/

namespace JirAgent

/-- Nanoseconds in one day, the unit used by pandas `Timedelta.days`. -/
def nsPerDay : Int := 86400000000000

/-- The `.days` component of a pandas `Timedelta`: floor division of the
nanosecond difference by one day (pandas floors toward negative infinity,
e.g. `Timedelta(hours=-1).days == -1`). -/
def tdDays (diff : Int) : Int := Int.fdiv diff nsPerDay

/-- Day number (days since the epoch) of a nanosecond timestamp. -/
def dayNumber (ts : Int) : Int := Int.fdiv ts nsPerDay

/-- Civil date (year, month, day) from a day number; Howard Hinnant's
`civil_from_days` algorithm, which pandas datetime accessors agree with. -/
def civilFromDays (z : Int) : Int × Int × Int :=
  let z2 := z + 719468
  let era := Int.fdiv z2 146097
  let doe := z2 - era * 146097
  let yoe := Int.fdiv (doe - Int.fdiv doe 1460 + Int.fdiv doe 36524 - Int.fdiv doe 146096) 365
  let y := yoe + era * 400
  let doy := doe - (365 * yoe + Int.fdiv yoe 4 - Int.fdiv yoe 100)
  let mp := Int.fdiv (5 * doy + 2) 153
  let d := doy - Int.fdiv (153 * mp + 2) 5 + 1
  let m := mp + (if mp < 10 then 3 else -9)
  (y + (if m ≤ 2 then 1 else 0), m, d)

/-- Day number of a civil date; inverse of `civilFromDays`. -/
def daysFromCivil (y m d : Int) : Int :=
  let y2 := y - (if m ≤ 2 then 1 else 0)
  let era := Int.fdiv y2 400
  let yoe := y2 - era * 400
  let doy := Int.fdiv (153 * (m + (if m > 2 then -3 else 9)) + 2) 5 + d - 1
  let doe := yoe * 365 + Int.fdiv yoe 4 - Int.fdiv yoe 100 + doy
  era * 146097 + doe - 719468

/-- ISO-8601 week number of a day number (`Series.dt.isocalendar().week`):
the week of the Thursday of the day's Monday-anchored week. -/
def isoWeek (day : Int) : Int :=
  let wd := Int.emod (day + 3) 7
  let thu := day - wd + 3
  let y := (civilFromDays thu).1
  Int.fdiv (thu - daysFromCivil y 1 1) 7 + 1

/-- Raw ticket record as produced by `JiraAgent.search_tickets`
(`jira_client.py`): one dict per issue with these ten fields.  The
`created`/`updated` fields are modelled after the
`pd.to_datetime(..., errors='coerce')` parse performed by
`get_fresh_data`: `none` is `NaT`. -/
structure RawTicket where
  key : String
  summary : String
  status : String
  assignee : String
  project : String
  issue_type : String
  created : Option Int
  updated : Option Int
  priority : String
  reporter : String
deriving DecidableEq, Repr

/-- Statuses regarded as resolved (`_calculate_metrics`,
`df['status'].isin(['Done', 'Closed', 'Resolved', 'Completed'])`). -/
def resolvedStatuses : List String := ["Done", "Closed", "Resolved", "Completed"]

/-- Priority scoring map of `_calculate_metrics`
(`priority_map = ... ; df['priority'].map(priority_map).fillna(0)`). -/
def priorityScore (p : String) : Int :=
  (([("Critical", 5), ("High", 4), ("Medium", 3), ("Low", 2), ("Lowest", 1)] :
      List (String × Int)).lookup p).getD 0

/-- Status bucketing of `JiraAnalytics._categorize_status`. -/
def categorize_status (status : String) : String :=
  if status ∈ ["Done", "Closed", "Resolved", "Completed"] then "Resolved"
  else if status ∈ ["In Progress", "Active", "Development"] then "Active"
  else if status ∈ ["To Do", "Open", "New", "Backlog"] then "Pending"
  else "Other"

/-- Enriched ticket row: the raw fields plus the columns added by
`JiraAnalytics._calculate_metrics`.  The `week_start` column does not
exist after enrichment (it is only assigned later, in place, by
`get_trend_analytics`); its absence is modelled as `none`. -/
structure Enriched where
  key : String
  summary : String
  status : String
  assignee : String
  project : String
  issue_type : String
  created : Option Int
  updated : Option Int
  priority : String
  reporter : String
  resolution_time_days : Option Int
  is_resolved : Bool
  created_date : Option Int
  created_week : Option Int
  created_month : Option (Int × Int)
  created_year : Option Int
  priority_score : Int
  status_category : String
  week_start : Option Int
deriving DecidableEq, Repr

/-- Row-local part of `JiraAnalytics._calculate_metrics`: all derived
columns are computed per record from that record alone. -/
def enrichRow (t : RawTicket) : Enriched :=
  let is_res := decide (t.status ∈ resolvedStatuses)
  { key := t.key
    summary := t.summary
    status := t.status
    assignee := t.assignee
    project := t.project
    issue_type := t.issue_type
    created := t.created
    updated := t.updated
    priority := t.priority
    reporter := t.reporter
    resolution_time_days :=
      if is_res then
        match t.created, t.updated with
        | some c, some u => some (tdDays (u - c))
        | _, _ => none
      else none
    is_resolved := is_res
    created_date := t.created.map dayNumber
    created_week := t.created.map (fun ts => isoWeek (dayNumber ts))
    created_month := t.created.map (fun ts =>
      ((civilFromDays (dayNumber ts)).1, (civilFromDays (dayNumber ts)).2.1))
    created_year := t.created.map (fun ts => (civilFromDays (dayNumber ts)).1)
    priority_score := priorityScore t.priority
    status_category := categorize_status t.status
    week_start := none }

/-- `JiraAnalytics._calculate_metrics`: returns the empty frame unchanged;
otherwise derives the additional columns row by row. -/
def calculate_metrics (df : List RawTicket) : List Enriched :=
  match df with
  | [] => []
  | _ => df.map enrichRow

/-! ### Cache / freshness controller (`JiraAnalytics.get_fresh_data`) -/

/-- Mutable state of a `JiraAnalytics` instance: the `'tickets'` entry of
`self.data_cache` and `self.cache_timestamp`.  The code always writes the
two together, so they are modelled as one optional pair would be — kept as
two options to mirror the two attributes; `none` is the initial
`{}` / `None` state.  Times are nanoseconds since the epoch. -/
structure AnalyticsState where
  data_cache : Option (List Enriched)
  cache_timestamp : Option Int
deriving DecidableEq, Repr

/-- Outcome of the external call `self.jira_agent.search_tickets(jql)`,
supplied as an oracle: either the returned record list, or one of the
exception kinds (`ConnectionError`, `ValueError`, `KeyError`) caught by
`get_fresh_data`.  The JQL itself (180-day window, newest first) only
parameterizes the external call and does not influence the controller's
branching. -/
inductive SourceResult where
  | ok : List RawTicket → SourceResult
  | err : SourceResult
deriving DecidableEq, Repr

/-- Result of one `get_fresh_data` call: the returned dataframe, the state
of the instance after the call, and whether the external source was
invoked (`search_tickets` reached). -/
structure FetchOutcome where
  result : List Enriched
  state : AnalyticsState
  fetched : Bool
deriving DecidableEq, Repr

/-- `self.cache_duration = timedelta(minutes=5)`, in nanoseconds:
5 minutes = 300 seconds = 300 * 10^9 ns. -/
def cache_duration : Int := 300000000000

/-- The cache-hit test of `get_fresh_data`: not forcing, a timestamp is
set, it is younger than `cache_duration`, and `'tickets' in
self.data_cache`. -/
def cacheFresh (st : AnalyticsState) (now : Int) : Bool :=
  match st.cache_timestamp, st.data_cache with
  | some ts, some _ => decide (now - ts < cache_duration)
  | _, _ => false

/-- `JiraAnalytics.get_fresh_data(force_refresh)` at time `now`, with the
external source's behaviour given by `source`.  On a cache hit the cached
table is returned with no fetch; otherwise the source is consulted: an
exception or an empty record list yields an empty frame with the state
untouched, and a non-empty record list is enriched, cached with timestamp
`now`, and returned. -/
def get_fresh_data (st : AnalyticsState) (now : Int) (force_refresh : Bool)
    (source : SourceResult) : FetchOutcome :=
  if !force_refresh && cacheFresh st now then
    { result := st.data_cache.getD [], state := st, fetched := false }
  else
    match source with
    | .err => { result := [], state := st, fetched := true }
    | .ok tickets =>
      match tickets with
      | [] => { result := [], state := st, fetched := true }
      | _ =>
        let df := calculate_metrics tickets
        { result := df
          state := { data_cache := some df, cache_timestamp := some now }
          fetched := true }

/-! ### Numeric helpers for the aggregate reports -/

/-- Mean of a list of integers as an exact rational (pandas `mean` with
NaN already filtered out by the caller). -/
def ratMeanInt (l : List Int) : Rat := ((l.map (Int.cast : Int → Rat)).sum) / (l.length : Rat)

/-- Mean of a list of rationals. -/
def ratMean (l : List Rat) : Rat := l.sum / (l.length : Rat)

/-- Round half to even to the nearest integer, the rounding used by
Python/numpy `round`. -/
def roundHalfEven (q : Rat) : Int :=
  let f := ⌊q⌋
  let frac := q - (f : Rat)
  if frac < 1/2 then f
  else if (1/2 : Rat) < frac then f + 1
  else if f % 2 = 0 then f else f + 1

/-- pandas `.round(1)`: round to one decimal place. -/
def round1 (q : Rat) : Rat := (roundHalfEven (q * 10) : Rat) / 10

/-- Median of a list of integers (pandas `median` over the non-null
values): middle element of the sorted list, or the mean of the two middle
elements; `none` on the empty list (NaN). -/
def medianInt (l : List Int) : Option Rat :=
  let s := l.mergeSort (fun a b => decide (a ≤ b))
  match s.length with
  | 0 => none
  | Nat.succ _ =>
    let n := s.length
    if n % 2 = 1 then (s.get? (n / 2)).map (Int.cast : Int → Rat)
    else
      match s.get? (n / 2 - 1), s.get? (n / 2) with
      | some a, some b => some (((a : Rat) + (b : Rat)) / 2)
      | _, _ => none

/-! ### Generic grouping helpers (pandas `groupby` / `value_counts`) -/

/-- Sorted distinct keys of a list, as pandas `groupby(sort=True)`
produces; `le` is the key ordering. -/
def sortedKeys {α : Type} [DecidableEq α] (le : α → α → Bool) (l : List α) : List α :=
  l.dedup.mergeSort le

/-- Occurrence count of a key. -/
def keyCount {α : Type} [DecidableEq α] (l : List α) (k : α) : Nat :=
  (l.filter (fun x => x = k)).length

/-- `groupby(key).size()`: one `(key, count)` row per distinct key, keys
sorted ascending by `le`. -/
def groupCounts {α : Type} [DecidableEq α] (le : α → α → Bool) (l : List α) :
    List (α × Nat) :=
  (sortedKeys le l).map (fun k => (k, keyCount l k))

/-- Boolean ordering on strings used for key sorting. -/
def strLe (a b : String) : Bool := decide (a ≤ b)

/-- `value_counts()`: distinct values with counts, most frequent first. -/
def valueCounts (l : List String) : List (String × Nat) :=
  (groupCounts strLe l).mergeSort (fun a b => decide (b.2 ≤ a.2))

/-! ### Aggregate reports (`JiraAnalytics.get_*_analytics`) -/

/-- Overview report of `JiraAnalytics.get_overview_metrics`. -/
structure OverviewMetrics where
  total_tickets : Nat
  active_tickets : Nat
  resolved_tickets : Nat
  pending_tickets : Nat
  avg_resolution_time : Rat
  resolution_rate : Rat
deriving DecidableEq, Repr

/-- `JiraAnalytics.get_overview_metrics`: `{}` (`none`) on an empty frame,
otherwise the counts per status category, the mean of the non-null
resolution times (0 when there are none), and the resolution rate. -/
def get_overview_metrics (df : List Enriched) : Option OverviewMetrics × List Enriched :=
  match df with
  | [] => (none, df)
  | _ =>
    let total := df.length
    let active := (df.filter (fun r => r.status_category = "Active")).length
    let resolved := (df.filter (fun r => r.status_category = "Resolved")).length
    let pending := (df.filter (fun r => r.status_category = "Pending")).length
    let times := df.filterMap (fun r => r.resolution_time_days)
    let avg := if times.isEmpty then 0 else ratMeanInt times
    let rate := if 0 < total then (resolved : Rat) / (total : Rat) * 100 else 0
    (some { total_tickets := total, active_tickets := active,
            resolved_tickets := resolved, pending_tickets := pending,
            avg_resolution_time := avg, resolution_rate := rate }, df)

/-- One row of the per-assignee `groupby('assignee').agg(...)` table. -/
structure AssigneeRow where
  assignee : String
  total_tickets : Nat
  avg_resolution_time : Option Rat
  avg_priority : Rat
  resolved_tickets : Nat
  resolution_rate : Rat
deriving DecidableEq, Repr

/-- Aggregates of one assignee group: count, mean resolution time
(`none` when every value is null, pandas NaN), mean priority score,
resolved count, and the rounded resolution rate. -/
def assigneeRowFor (df : List Enriched) (name : String) : AssigneeRow :=
  let grp := df.filter (fun r => r.assignee = name)
  let times := grp.filterMap (fun r => r.resolution_time_days)
  let resolved := (grp.filter (fun r => r.status_category = "Resolved")).length
  { assignee := name
    total_tickets := grp.length
    avg_resolution_time := if times.isEmpty then none else some (ratMeanInt times)
    avg_priority := ratMeanInt (grp.map (fun r => r.priority_score))
    resolved_tickets := resolved
    resolution_rate := round1 ((resolved : Rat) / (grp.length : Rat) * 100) }

/-- The `assignee_stats` table: one row per distinct assignee (pandas
groupby keys, sorted), then `sort_values('total_tickets',
ascending=False)`. -/
def assignee_stats (df : List Enriched) : List AssigneeRow :=
  ((sortedKeys strLe (df.map (fun r => r.assignee))).map (assigneeRowFor df)).mergeSort
    (fun a b => decide (b.total_tickets ≤ a.total_tickets))

/-- Report of `JiraAnalytics.get_assignee_analytics`. -/
structure AssigneeReport where
  assignee_stats : List AssigneeRow
  top_assignees : List AssigneeRow
  most_efficient : List AssigneeRow
  slowest_resolvers : List AssigneeRow
deriving DecidableEq, Repr

/-- `JiraAnalytics.get_assignee_analytics`: `{}` on an empty frame,
otherwise the stats table, its first 10 rows, and the 5
highest/lowest resolution rates among assignees with at least 3
tickets (`nlargest` / `nsmallest`). -/
def get_assignee_analytics (df : List Enriched) : Option AssigneeReport × List Enriched :=
  match df with
  | [] => (none, df)
  | _ =>
    let stats := assignee_stats df
    let eligible := stats.filter (fun r => 3 ≤ r.total_tickets)
    (some { assignee_stats := stats
            top_assignees := stats.take 10
            most_efficient :=
              (eligible.mergeSort (fun a b => decide (b.resolution_rate ≤ a.resolution_rate))).take 5
            slowest_resolvers :=
              (eligible.mergeSort (fun a b => decide (a.resolution_rate ≤ b.resolution_rate))).take 5 },
     df)

/-- One row of the per-project `groupby('project').agg(...)` table. -/
structure ProjectRow where
  project : String
  total_tickets : Nat
  avg_resolution_time : Option Rat
  avg_priority : Rat
  resolved_tickets : Nat
  completion_rate : Rat
deriving DecidableEq, Repr

/-- Aggregates of one project group, mirroring `assigneeRowFor` with
`completion_rate` in place of `resolution_rate`. -/
def projectRowFor (df : List Enriched) (name : String) : ProjectRow :=
  let grp := df.filter (fun r => r.project = name)
  let times := grp.filterMap (fun r => r.resolution_time_days)
  let resolved := (grp.filter (fun r => r.status_category = "Resolved")).length
  { project := name
    total_tickets := grp.length
    avg_resolution_time := if times.isEmpty then none else some (ratMeanInt times)
    avg_priority := ratMeanInt (grp.map (fun r => r.priority_score))
    resolved_tickets := resolved
    completion_rate := round1 ((resolved : Rat) / (grp.length : Rat) * 100) }

/-- The `project_stats` table, sorted descending by total tickets. -/
def project_stats (df : List Enriched) : List ProjectRow :=
  ((sortedKeys strLe (df.map (fun r => r.project))).map (projectRowFor df)).mergeSort
    (fun a b => decide (b.total_tickets ≤ a.total_tickets))

/-- Report of `JiraAnalytics.get_project_analytics`. -/
structure ProjectReport where
  project_stats : List ProjectRow
  most_active_projects : List ProjectRow
  most_completed_projects : List ProjectRow
  project_count : Nat
deriving DecidableEq, Repr

/-- `JiraAnalytics.get_project_analytics`. -/
def get_project_analytics (df : List Enriched) : Option ProjectReport × List Enriched :=
  match df with
  | [] => (none, df)
  | _ =>
    let stats := project_stats df
    (some { project_stats := stats
            most_active_projects := stats.take 10
            most_completed_projects :=
              (stats.mergeSort (fun a b => decide (b.completion_rate ≤ a.completion_rate))).take 5
            project_count := stats.length },
     df)

/-- The Monday-midnight anchor assigned by `get_trend_analytics`:
`created.dt.normalize() - to_timedelta(created.dt.weekday, unit='D')`;
`NaT` stays `NaT`.  Day 0 (1970-01-01) is a Thursday, so the weekday
(Monday = 0) of day `d` is `(d + 3) % 7`. -/
def weekStartOf (created : Option Int) : Option Int :=
  created.map (fun ts =>
    let d := dayNumber ts
    (d - Int.emod (d + 3) 7) * nsPerDay)

/-- The in-place column assignment `df['week_start'] = ...` on one row. -/
def setWeekStart (r : Enriched) : Enriched := { r with week_start := weekStartOf r.created }

/-- Least-squares slope of a series against index positions `0..n-1`, the
degree-1 coefficient `np.polyfit(x, y, 1)[0]` computes (floats modelled
as exact rationals). -/
def lsSlope (ys : List Rat) : Rat :=
  let n : Rat := (ys.length : Rat)
  let xs : List Rat := (List.range ys.length).map (fun i => (i : Rat))
  let sx := xs.sum
  let sy := ys.sum
  let sxy := ((xs.zip ys).map (fun p => p.1 * p.2)).sum
  let sxx := (xs.map (fun x => x * x)).sum
  (n * sxy - sx * sy) / (n * sxx - sx * sx)

/-- `JiraAnalytics._calculate_trend`: 0 for fewer than 2 points (the
source repeats this guard twice), otherwise the least-squares slope
normalized by `max(abs(slope), 1)`. -/
def calculate_trend (series : List Rat) : Rat :=
  if series.length < 2 then 0
  else
    let slope := lsSlope series
    let max_slope := max |slope| 1
    slope / max_slope

/-- Report of `JiraAnalytics.get_trend_analytics`.  Grouped counts carry
their group key (pandas drops `NaT` keys); `daily_resolution` groups by
the raw `updated` timestamp exactly as the source does. -/
structure TrendReport where
  daily_creation : List (Int × Nat)
  weekly_creation : List (Int × Nat)
  monthly_creation : List ((Int × Int) × Nat)
  daily_resolution : List (Int × Nat)
  creation_trend : Rat
  resolution_trend : Rat
deriving DecidableEq, Repr

/-- Boolean ordering on integers used for key sorting. -/
def intLe (a b : Int) : Bool := decide (a ≤ b)

/-- Lexicographic ordering on (year, month) keys. -/
def ymLe (a b : Int × Int) : Bool := decide (a.1 < b.1 ∨ (a.1 = b.1 ∧ a.2 ≤ b.2))

/-- Lexicographic ordering on string-pair keys. -/
def strPairLe (a b : String × String) : Bool := decide (a.1 < b.1 ∨ (a.1 = b.1 ∧ a.2 ≤ b.2))

/-- `JiraAnalytics.get_trend_analytics`: `{}` on an empty frame; otherwise
it assigns the `week_start` column to the frame in place (the returned
frame is the mutated one) and produces the four grouped counts and the
two trend scalars. -/
def get_trend_analytics (df : List Enriched) : Option TrendReport × List Enriched :=
  match df with
  | [] => (none, df)
  | _ =>
    let daily_creation := groupCounts intLe (df.filterMap (fun r => r.created_date))
    let df2 := df.map setWeekStart
    let weekly_creation := groupCounts intLe (df2.filterMap (fun r => r.week_start))
    let monthly_creation := groupCounts ymLe (df.filterMap (fun r => r.created_month))
    let resolved_df := df2.filter (fun r => r.is_resolved)
    let daily_resolution := groupCounts intLe (resolved_df.filterMap (fun r => r.updated))
    (some { daily_creation := daily_creation
            weekly_creation := weekly_creation
            monthly_creation := monthly_creation
            daily_resolution := daily_resolution
            creation_trend := calculate_trend (daily_creation.map (fun p => (p.2 : Rat)))
            resolution_trend :=
              if daily_resolution.isEmpty then 0
              else calculate_trend (daily_resolution.map (fun p => (p.2 : Rat))) },
     df2)

/-- Report of `JiraAnalytics.get_status_analytics`.  The
`unstack(fill_value=0)` matrix is modelled by its populated cells
(category × project counts); absent cells are the zero-filled ones. -/
structure StatusReport where
  status_distribution : List (String × Nat)
  status_category_distribution : List (String × Nat)
  status_flow : List ((String × String) × Nat)
  status_count : Nat
deriving DecidableEq, Repr

/-- `JiraAnalytics.get_status_analytics`. -/
def get_status_analytics (df : List Enriched) : Option StatusReport × List Enriched :=
  match df with
  | [] => (none, df)
  | _ =>
    let status_dist := valueCounts (df.map (fun r => r.status))
    (some { status_distribution := status_dist
            status_category_distribution := valueCounts (df.map (fun r => r.status_category))
            status_flow := groupCounts strPairLe (df.map (fun r => (r.status_category, r.project)))
            status_count := status_dist.length },
     df)

/-- One row of the per-priority resolution-time aggregation
(`mean`, `median`, `count` over the non-null values; `none` is NaN). -/
structure PriorityResolutionRow where
  priority : String
  mean : Option Rat
  median : Option Rat
  count : Nat
deriving DecidableEq, Repr

/-- Report of `JiraAnalytics.get_priority_analytics`. -/
structure PriorityReport where
  priority_distribution : List (String × Nat)
  priority_by_project : List ((String × String) × Nat)
  priority_resolution_times : List PriorityResolutionRow
deriving DecidableEq, Repr

/-- Resolution-time aggregates of one priority group. -/
def priorityResolutionFor (df : List Enriched) (p : String) : PriorityResolutionRow :=
  let times := (df.filter (fun r => r.priority = p)).filterMap (fun r => r.resolution_time_days)
  { priority := p
    mean := if times.isEmpty then none else some (ratMeanInt times)
    median := medianInt times
    count := times.length }

/-- `JiraAnalytics.get_priority_analytics`. -/
def get_priority_analytics (df : List Enriched) : Option PriorityReport × List Enriched :=
  match df with
  | [] => (none, df)
  | _ =>
    (some { priority_distribution := valueCounts (df.map (fun r => r.priority))
            priority_by_project := groupCounts strPairLe (df.map (fun r => (r.project, r.priority)))
            priority_resolution_times :=
              (sortedKeys strLe (df.map (fun r => r.priority))).map (priorityResolutionFor df) },
     df)

/-- Placeholder report of `JiraAnalytics.get_epic_analytics`. -/
structure EpicReport where
  epic_count : Nat
  epic_tickets : List (String × Nat)
  epic_progress : List (String × Rat)
deriving DecidableEq, Repr

/-- `JiraAnalytics.get_epic_analytics`: `{}` on an empty frame, otherwise
the fixed zeroed/empty structure. -/
def get_epic_analytics (df : List Enriched) : Option EpicReport × List Enriched :=
  match df with
  | [] => (none, df)
  | _ => (some { epic_count := 0, epic_tickets := [], epic_progress := [] }, df)

/-! ### The `top_assignees` chat tool (`analytics_tools.py`) -/

/-- Python `str.strip()` as used on the `metric` argument: remove leading
and trailing whitespace. -/
def pyStrip (s : String) : String :=
  String.mk ((s.data.dropWhile Char.isWhitespace).reverse.dropWhile Char.isWhitespace).reverse

/-- The valid metric set of `AnalyticsTools.top_assignees`. -/
def validMetrics : List String :=
  ["total_tickets", "resolved_tickets", "resolution_rate", "avg_resolution_time"]

/-- The rejection message for an out-of-domain metric:
the valid names joined in sorted order. -/
def invalidMetricMsg : String :=
  "❌ metric must be one of: avg_resolution_time, resolution_rate, resolved_tickets, total_tickets"

/-- Value of a (valid) metric on a stats row, used for the ordering. -/
def metricValue (metric : String) (r : AssigneeRow) : Rat :=
  if metric = "total_tickets" then (r.total_tickets : Rat)
  else if metric = "resolved_tickets" then (r.resolved_tickets : Rat)
  else if metric = "resolution_rate" then r.resolution_rate
  else r.avg_resolution_time.getD 0

/-- Fixed-point rendering to one decimal place (Python `.1f`). -/
def fmt1 (q : Rat) : String :=
  let scaled := roundHalfEven (q * 10)
  (if scaled < 0 then "-" else "") ++ toString (scaled.natAbs / 10) ++ "." ++
    toString (scaled.natAbs % 10)

/-- Rendering of a possibly-NaN mean (`float(nan) or 0.0` keeps NaN,
which Python then prints as `nan`). -/
def fmtAvg (a : Option Rat) : String :=
  match a with
  | none => "nan"
  | some q => fmt1 q

/-- One output line of the assignee listings. -/
def renderAssigneeLine (r : AssigneeRow) : String :=
  "- " ++ r.assignee ++ ": total=" ++ toString r.total_tickets ++ ", resolved=" ++
    toString r.resolved_tickets ++ ", avg_days=" ++ fmtAvg r.avg_resolution_time ++
    ", rate=" ++ fmt1 r.resolution_rate ++ "%"

/-- `AnalyticsTools.top_assignees(metric, limit)` evaluated on the frame
`df` the freshness controller returned: the guards run in source order —
empty frame, then absent/empty stats, then metric validation — and only
then is the listing produced (`nsmallest` over the non-null means for
`avg_resolution_time`, `nlargest` otherwise, limited to `max(1, limit)`
rows). -/
def top_assignees (df : List Enriched) (metric : String) (limit : Int) : String :=
  let m := pyStrip metric
  if df.isEmpty then "No data available"
  else
    match (get_assignee_analytics df).1 with
    | none => "No assignee analytics available"
    | some rep =>
      let stats := rep.assignee_stats
      if stats.isEmpty then "No assignee analytics available"
      else if m ∉ validMetrics then invalidMetricMsg
      else
        let ordered :=
          if m = "avg_resolution_time" then
            ((stats.filter (fun r => r.avg_resolution_time.isSome)).mergeSort
              (fun a b => decide (a.avg_resolution_time.getD 0 ≤ b.avg_resolution_time.getD 0))).take
              (max 1 limit).toNat
          else
            (stats.mergeSort (fun a b => decide (metricValue m b ≤ metricValue m a))).take
              (max 1 limit).toNat
        String.intercalate "\n"
          (("**Top assignees by " ++ m ++ ":**") :: ordered.map renderAssigneeLine)

/-! ### Auxiliary definitions for the claims -/

/-- Formalization of the spec sentence behind claim C3, for comparison
with the source's computation: the difference of the calendar dates,
`(updated.date() - created.date()).days`, when both timestamps parse. -/
def specResolutionDateDiff (created updated : Option Int) : Option Int :=
  match created, updated with
  | some c, some u => some (dayNumber u - dayNumber c)
  | _, _ => none

/-- Concrete ticket template used as input data by the claim theorems. -/
def mkTicket (status : String) (created updated : Option Int) : RawTicket :=
  { key := "T-1", summary := "a summary", status := status, assignee := "alice"
    project := "PRJ", issue_type := "Task", created := created
    updated := updated, priority := "High", reporter := "bob" }

/-- Removing the `week_start` column from a row, used to state that the
trend report changes nothing but that column. -/
def clearWeekStart (r : Enriched) : Enriched := { r with week_start := none }

/-! ### Helper lemmas -/

/-- Rows of the enriched table are row-local enrichments of input rows. -/
lemma mem_calculate_metrics {df : List RawTicket} {r : Enriched}
    (hr : r ∈ calculate_metrics df) : ∃ t ∈ df, enrichRow t = r := by
  cases df with
  | nil => simp [calculate_metrics] at hr
  | cons a as =>
    simp only [calculate_metrics] at hr
    exact List.mem_map.mp hr

/-- The status bucketing takes one of exactly four values. -/
lemma categorize_status_cases (s : String) :
    categorize_status s = "Active" ∨ categorize_status s = "Resolved"
    ∨ categorize_status s = "Pending" ∨ categorize_status s = "Other" := by
  unfold categorize_status
  split
  · simp
  split
  · simp
  split
  · simp
  · simp

/-- Counting a list by the four status-category buckets is exhaustive. -/
lemma filter_category_partition (l : List Enriched)
    (h : ∀ r ∈ l, r.status_category = "Active" ∨ r.status_category = "Resolved"
        ∨ r.status_category = "Pending" ∨ r.status_category = "Other") :
    (l.filter (fun r => r.status_category = "Active")).length
      + (l.filter (fun r => r.status_category = "Resolved")).length
      + (l.filter (fun r => r.status_category = "Pending")).length
      + (l.filter (fun r => r.status_category = "Other")).length = l.length := by
  induction l with
  | nil => simp
  | cons a l ih =>
    have ha := h a (List.mem_cons_self a l)
    have hl := ih (fun r hr => h r (List.mem_cons_of_mem a hr))
    rcases ha with ha | ha | ha | ha <;>
      simp [List.filter_cons, ha] <;> omega

/-- A non-empty enriched table yields a non-empty assignee stats table. -/
lemma assignee_stats_ne_nil {df : List Enriched} (h : df ≠ []) :
    assignee_stats df ≠ [] := by
  intro hcon
  apply h
  have hlen : (assignee_stats df).length = 0 := by rw [hcon]; rfl
  rw [assignee_stats] at hlen
  simp only [List.length_mergeSort, List.length_map, sortedKeys] at hlen
  rw [List.length_eq_zero, List.dedup_eq_nil, List.map_eq_nil_iff] at hlen
  exact hlen

/-- A forced refresh always reaches the external source. -/
lemma force_refresh_fetches (st : AnalyticsState) (now : Int) (src : SourceResult) :
    (get_fresh_data st now true src).fetched = true := by
  cases src with
  | err => rfl
  | ok tickets => cases tickets <;> rfl

/-! ### Claim theorems -/

/-- C3 (counterexample): a resolved ticket created at 23:00 and updated at
01:00 the next day gets `resolution_time_days = 0` from the code (the
`.days` of the 2-hour timestamp difference), while the claim's formula
`(updated.date - created.date).days` gives 1, so the claim as stated is
false at this input. -/
theorem c3_counterexample :
    ((calculate_metrics [mkTicket "Done" (some 82800000000000) (some 90000000000000)]).map
        (fun r => r.resolution_time_days)) = [some 0]
    ∧ specResolutionDateDiff (some 82800000000000) (some 90000000000000) = some 1
    ∧ (some (0 : Int)) ≠ some (1 : Int) :=
  ⟨by decide, by decide, by decide⟩

/-- C3 (amended): for every enriched record with `is_resolved` true and
both timestamps parsed, `resolution_time_days` is the `.days` component of
the full timestamp difference `updated - created` (the floor of the
nanosecond difference over one day), and for every other record it is
null. -/
theorem c3_resolution_time_floor_days (df : List RawTicket) (r : Enriched)
    (hr : r ∈ calculate_metrics df) :
    (∀ c u, r.is_resolved = true → r.created = some c → r.updated = some u →
      r.resolution_time_days = some (tdDays (u - c)))
    ∧ ((r.is_resolved = false ∨ r.created = none ∨ r.updated = none) →
      r.resolution_time_days = none) := by
  obtain ⟨t, ht, rfl⟩ := mem_calculate_metrics hr
  constructor
  · intro c u hres hc hu
    simp only [enrichRow] at hres hc hu ⊢
    simp [hres, hc, hu]
  · intro hcase
    rcases hcase with hres | hc | hu
    · simp only [enrichRow] at hres ⊢
      simp [hres]
    · simp only [enrichRow] at hc ⊢
      rw [hc]
      split <;> rfl
    · simp only [enrichRow] at hu ⊢
      rw [hu]
      split
      · cases t.created <;> rfl
      · rfl

/-- C3 (witness): the amended theorem applied to a ticket resolved exactly
one day after creation. -/
theorem c3_witness :
    (enrichRow (mkTicket "Done" (some 0) (some 86400000000000))).resolution_time_days
      = some (tdDays (86400000000000 - 0)) :=
  (c3_resolution_time_floor_days [mkTicket "Done" (some 0) (some 86400000000000)]
      (enrichRow (mkTicket "Done" (some 0) (some 86400000000000)))
      (by decide)).1 0 86400000000000 (by decide) (by decide) (by decide)

/-- C5 (counterexample): on the empty table the overview report is the
empty dict, not a structure carrying zeroed counts and a zero resolution
rate, so the claim as stated is false at the empty input. -/
theorem c5_counterexample :
    (get_overview_metrics []).1
      ≠ some { total_tickets := 0, active_tickets := 0, resolved_tickets := 0,
               pending_tickets := 0, avg_resolution_time := 0, resolution_rate := 0 } := by
  decide

/-- C5 (amended): on the empty table every one of the seven aggregate
report functions returns the empty dict (`none`), without raising; the
count fields and the resolution rate are omitted, not zeroed. -/
theorem c5_empty_reports :
    (get_overview_metrics []).1 = none
    ∧ (get_assignee_analytics []).1 = none
    ∧ (get_project_analytics []).1 = none
    ∧ (get_trend_analytics []).1 = none
    ∧ (get_status_analytics []).1 = none
    ∧ (get_priority_analytics []).1 = none
    ∧ (get_epic_analytics []).1 = none :=
  ⟨rfl, rfl, rfl, rfl, rfl, rfl, rfl⟩

/-- C7 (counterexample): calling the trend report on a concrete enriched
table does not leave the table it was given unchanged: the `week_start`
column has been assigned in place. -/
theorem c7_counterexample :
    (get_trend_analytics (calculate_metrics [mkTicket "Done" (some 0) (some 0)])).2
      ≠ calculate_metrics [mkTicket "Done" (some 0) (some 0)] := by
  decide

/-- C7 (amended): six of the seven report functions leave the enriched
table unchanged; the trend report leaves the table with the `week_start`
column assigned in place (derived row-locally from `created`), preserving
every other column and the row count. -/
theorem c7_reports_frame (df : List Enriched) :
    (get_overview_metrics df).2 = df
    ∧ (get_assignee_analytics df).2 = df
    ∧ (get_project_analytics df).2 = df
    ∧ (get_status_analytics df).2 = df
    ∧ (get_priority_analytics df).2 = df
    ∧ (get_epic_analytics df).2 = df
    ∧ (get_trend_analytics df).2 = df.map setWeekStart
    ∧ (get_trend_analytics df).2.map clearWeekStart = df.map clearWeekStart
    ∧ ((get_trend_analytics df).2).length = df.length := by
  have htrend : (get_trend_analytics df).2 = df.map setWeekStart := by
    cases df <;> rfl
  refine ⟨by cases df <;> rfl, by cases df <;> rfl, by cases df <;> rfl,
    by cases df <;> rfl, by cases df <;> rfl, by cases df <;> rfl, htrend, ?_, ?_⟩
  · rw [htrend, List.map_map]
    rfl
  · rw [htrend, List.length_map]

/-- C9: a record whose status is in the resolved set and whose parsed
`updated` is strictly earlier than its parsed `created` is enriched with
a strictly negative `resolution_time_days`: no clamping at zero. -/
theorem c9_negative_resolution_not_clamped (t : RawTicket) (c u : Int)
    (hres : t.status ∈ resolvedStatuses) (hc : t.created = some c)
    (hu : t.updated = some u) (hlt : u < c) :
    ∃ d, ((calculate_metrics [t]).map (fun r => r.resolution_time_days)) = [some d]
      ∧ d < 0 := by
  refine ⟨tdDays (u - c), ?_, ?_⟩
  · simp [calculate_metrics, enrichRow, hc, hu, decide_eq_true hres]
  · have h1 : u - c < 0 := by omega
    have h2 : Int.fdiv (u - c) nsPerDay < 0 := Int.fdiv_neg' h1 (by decide)
    simpa [tdDays] using h2

/-- C9 (witness): the theorem applied to a closed ticket whose `updated`
precedes its `created` by one hour. -/
theorem c9_witness :
    ∃ d, ((calculate_metrics [mkTicket "Closed" (some 3600000000000) (some 0)]).map
        (fun r => r.resolution_time_days)) = [some d] ∧ d < 0 :=
  c9_negative_resolution_not_clamped (mkTicket "Closed" (some 3600000000000) (some 0))
    3600000000000 0 (by decide) (by decide) (by decide) (by decide)

/-- C10: the empty-data guard of `top_assignees` precedes metric
validation: on the empty table the call answers with the no-data response
for every metric string and every limit, including invalid metric
names. -/
theorem c10_empty_check_precedes_metric_validation (metric : String) (limit : Int) :
    top_assignees [] metric limit = "No data available" := rfl

/-! ### Remaining helper lemmas for the cache and overview claims -/

/-- A fresh cache and an unforced call short-circuit to the cached table. -/
lemma gfd_hit {st : AnalyticsState} {now : Int} {src : SourceResult}
    (h : cacheFresh st now = true) :
    get_fresh_data st now false src =
      { result := st.data_cache.getD [], state := st, fetched := false } := by
  simp [get_fresh_data, h]

/-- A cache miss with a failing source returns the empty frame and leaves
the state unchanged. -/
lemma gfd_miss_err {st : AnalyticsState} {now : Int}
    (h : cacheFresh st now = false) :
    get_fresh_data st now false SourceResult.err =
      { result := [], state := st, fetched := true } := by
  simp [get_fresh_data, h]

/-- A cache miss with an empty record list returns the empty frame and
leaves the state unchanged. -/
lemma gfd_miss_nil {st : AnalyticsState} {now : Int}
    (h : cacheFresh st now = false) :
    get_fresh_data st now false (SourceResult.ok []) =
      { result := [], state := st, fetched := true } := by
  simp [get_fresh_data, h]

/-- A cache miss with a non-empty record list enriches, caches and
returns the new table stamped with the current time. -/
lemma gfd_miss_cons {st : AnalyticsState} {now : Int} (a : RawTicket)
    (as : List RawTicket) (h : cacheFresh st now = false) :
    get_fresh_data st now false (SourceResult.ok (a :: as)) =
      { result := calculate_metrics (a :: as)
        state := { data_cache := some (calculate_metrics (a :: as))
                   cache_timestamp := some now }
        fetched := true } := by
  simp [get_fresh_data, h]

/-- A populated cache entry younger than the cache duration is fresh. -/
lemma cacheFresh_of (tbl : List Enriched) (ts now : Int)
    (h : now - ts < cache_duration) {st : AnalyticsState}
    (hc : st.data_cache = some tbl) (ht : st.cache_timestamp = some ts) :
    cacheFresh st now = true := by
  simp only [cacheFresh, hc, ht]
  exact decide_eq_true h

/-- The overview report on a non-empty table is the record of the four
status-category counts (plus the two rates). -/
lemma get_overview_metrics_cons (b : Enriched) (bs : List Enriched) :
    ∃ m, (get_overview_metrics (b :: bs)).1 = some m
      ∧ m.total_tickets = (b :: bs).length
      ∧ m.active_tickets = ((b :: bs).filter (fun r => r.status_category = "Active")).length
      ∧ m.resolved_tickets = ((b :: bs).filter (fun r => r.status_category = "Resolved")).length
      ∧ m.pending_tickets = ((b :: bs).filter (fun r => r.status_category = "Pending")).length :=
  ⟨_, rfl, rfl, rfl, rfl, rfl⟩

/-! ### Claim theorems for the cache, overview, trend and tool claims -/

/-- C1: if a call to the freshness controller at time `t0` with
`force_refresh = False` leaves a populated cache stamped `t0`, then a
second call within the 5-minute cache duration with
`force_refresh = False` returns the same table contents and does not
invoke the external ticket source; and a call with
`force_refresh = True` always invokes the source. -/
theorem c1_cache_freshness (st : AnalyticsState) (t0 t1 : Int)
    (s1 s2 : SourceResult)
    (hcache : (get_fresh_data st t0 false s1).state.data_cache.isSome = true)
    (hts : (get_fresh_data st t0 false s1).state.cache_timestamp = some t0)
    (hlt : t1 - t0 < cache_duration) :
    (get_fresh_data (get_fresh_data st t0 false s1).state t1 false s2).result
        = (get_fresh_data st t0 false s1).result
    ∧ (get_fresh_data (get_fresh_data st t0 false s1).state t1 false s2).fetched = false
    ∧ ∀ (st2 : AnalyticsState) (t2 : Int) (s3 : SourceResult),
        (get_fresh_data st2 t2 true s3).fetched = true := by
  by_cases h1 : cacheFresh st t0 = true
  · have e1 := @gfd_hit st t0 s1 h1
    have hstate : (get_fresh_data st t0 false s1).state = st := by rw [e1]
    have hres : (get_fresh_data st t0 false s1).result = st.data_cache.getD [] := by
      rw [e1]
    rw [hstate] at hcache hts
    rw [hstate, hres]
    obtain ⟨tbl, htbl⟩ := Option.isSome_iff_exists.mp hcache
    have h2 : cacheFresh st t1 = true := cacheFresh_of tbl t0 t1 hlt htbl hts
    rw [gfd_hit h2]
    exact ⟨rfl, rfl, force_refresh_fetches⟩
  · have h1' : cacheFresh st t0 = false := by simpa using h1
    have hself : cacheFresh st t0 = true → False := by
      intro hcon
      rw [h1'] at hcon
      exact Bool.noConfusion hcon
    cases s1 with
    | err =>
      have e1 := gfd_miss_err h1'
      have hstate : (get_fresh_data st t0 false SourceResult.err).state = st := by rw [e1]
      rw [hstate] at hcache hts
      obtain ⟨tbl, htbl⟩ := Option.isSome_iff_exists.mp hcache
      exact absurd (cacheFresh_of tbl t0 t0 (by rw [sub_self]; decide) htbl hts) hself
    | ok tickets =>
      cases tickets with
      | nil =>
        have e1 := gfd_miss_nil h1'
        have hstate : (get_fresh_data st t0 false (SourceResult.ok [])).state = st := by
          rw [e1]
        rw [hstate] at hcache hts
        obtain ⟨tbl, htbl⟩ := Option.isSome_iff_exists.mp hcache
        exact absurd (cacheFresh_of tbl t0 t0 (by rw [sub_self]; decide) htbl hts) hself
      | cons a as =>
        have e1 := gfd_miss_cons a as h1'
        have hstate : (get_fresh_data st t0 false (SourceResult.ok (a :: as))).state
            = { data_cache := some (calculate_metrics (a :: as))
                cache_timestamp := some t0 } := by rw [e1]
        have hres : (get_fresh_data st t0 false (SourceResult.ok (a :: as))).result
            = calculate_metrics (a :: as) := by rw [e1]
        rw [hstate, hres]
        rw [gfd_hit (cacheFresh_of (calculate_metrics (a :: as)) t0 t1 hlt rfl rfl)]
        exact ⟨rfl, rfl, force_refresh_fetches⟩

/-- C1 (witness): a first call on the pristine state at time 0 populates
the cache from one ticket; the second call 1 ns later replays it without
consulting the (now failing) source. -/
theorem c1_witness :
    (get_fresh_data (get_fresh_data ⟨none, none⟩ 0 false
          (SourceResult.ok [mkTicket "Done" (some 0) (some 0)])).state 1 false
        SourceResult.err).result
      = (get_fresh_data ⟨none, none⟩ 0 false
          (SourceResult.ok [mkTicket "Done" (some 0) (some 0)])).result
    ∧ (get_fresh_data (get_fresh_data ⟨none, none⟩ 0 false
          (SourceResult.ok [mkTicket "Done" (some 0) (some 0)])).state 1 false
        SourceResult.err).fetched = false
    ∧ ∀ (st2 : AnalyticsState) (t2 : Int) (s3 : SourceResult),
        (get_fresh_data st2 t2 true s3).fetched = true :=
  c1_cache_freshness ⟨none, none⟩ 0 1
    (SourceResult.ok [mkTicket "Done" (some 0) (some 0)]) SourceResult.err
    (by decide) (by decide) (by decide)

/-- C2: whenever a call to the freshness controller actually consults the
external source and the source fails with a caught exception or returns
no records, the call returns the empty table and leaves the cache state
(cached table and timestamp) unchanged; no such failure escapes as an
exception (the embedding is a total function into `FetchOutcome`). -/
theorem c2_source_failure_isolated (st : AnalyticsState) (now : Int)
    (force : Bool) (src : SourceResult)
    (hfetch : (get_fresh_data st now force src).fetched = true)
    (hbad : src = SourceResult.err ∨ src = SourceResult.ok []) :
    (get_fresh_data st now force src).result = []
    ∧ (get_fresh_data st now force src).state = st := by
  by_cases hc : (!force && cacheFresh st now) = true
  · simp [get_fresh_data, hc] at hfetch
  · have hc' : (!force && cacheFresh st now) = false := by simpa using hc
    rcases hbad with h | h <;> subst h <;>
      exact ⟨by simp [get_fresh_data, hc'], by simp [get_fresh_data, hc']⟩

/-- C2 (witness): a failing source on the pristine state yields the empty
table and the untouched state. -/
theorem c2_witness :
    (get_fresh_data ⟨none, none⟩ 0 false SourceResult.err).result = []
    ∧ (get_fresh_data ⟨none, none⟩ 0 false SourceResult.err).state = ⟨none, none⟩ :=
  c2_source_failure_isolated ⟨none, none⟩ 0 false SourceResult.err
    (by decide) (Or.inl rfl)

/-- C4 (counterexample): a single ticket with the unrecognized status
string `"Weird"` falls in the `Other` category, so the overview metrics
have `active + resolved + pending = 0` while `total = 1`: the three named
categories do not partition the record set. -/
theorem c4_counterexample :
    ((get_overview_metrics (calculate_metrics [mkTicket "Weird" (some 0) (some 0)])).1.map
        (fun m => (m.active_tickets + m.resolved_tickets + m.pending_tickets,
          m.total_tickets)))
      = some (0, 1)
    ∧ (0 : Nat) ≠ 1 :=
  ⟨by decide, by decide⟩

/-- C4 (amended): for every non-empty enriched table the overview metrics
satisfy `active + resolved + pending + other = total`, where `other`
counts the records categorized `Other`; the four categories (not three)
partition the record set. -/
theorem c4_partition_includes_other (raw : List RawTicket) (hne : raw ≠ []) :
    ∃ m, (get_overview_metrics (calculate_metrics raw)).1 = some m
      ∧ m.active_tickets + m.resolved_tickets + m.pending_tickets
          + ((calculate_metrics raw).filter (fun r => r.status_category = "Other")).length
        = m.total_tickets := by
  cases raw with
  | nil => exact absurd rfl hne
  | cons a as =>
    obtain ⟨m, hm, htot, hact, hres, hpen⟩ :=
      get_overview_metrics_cons (enrichRow a) (as.map enrichRow)
    refine ⟨m, hm, ?_⟩
    rw [hact, hres, hpen, htot]
    have hmem : ∀ r ∈ (enrichRow a :: List.map enrichRow as),
        r.status_category = "Active" ∨ r.status_category = "Resolved"
        ∨ r.status_category = "Pending" ∨ r.status_category = "Other" := by
      intro r hr
      obtain ⟨t, _, rfl⟩ := @mem_calculate_metrics (a :: as) r hr
      exact categorize_status_cases t.status
    exact filter_category_partition (enrichRow a :: List.map enrichRow as) hmem

/-- C4 (witness): the amended partition identity at a one-row table. -/
theorem c4_witness :
    ∃ m, (get_overview_metrics (calculate_metrics [mkTicket "Done" (some 0) (some 0)])).1
        = some m
      ∧ m.active_tickets + m.resolved_tickets + m.pending_tickets
          + ((calculate_metrics [mkTicket "Done" (some 0) (some 0)]).filter
              (fun r => r.status_category = "Other")).length
        = m.total_tickets :=
  c4_partition_includes_other [mkTicket "Done" (some 0) (some 0)] (by decide)

/-- C6: the trend direction of any finite series lies in `[-1, 1]`; a
series of fewer than 2 points yields exactly 0; and for 2 or more points
it is the least-squares slope over index positions divided by
`max(abs(slope), 1)`. -/
theorem c6_trend_direction (series : List Rat) :
    (-1 ≤ calculate_trend series ∧ calculate_trend series ≤ 1)
    ∧ (series.length < 2 → calculate_trend series = 0)
    ∧ (2 ≤ series.length →
        calculate_trend series = lsSlope series / max |lsSlope series| 1) := by
  refine ⟨?_, ?_, ?_⟩
  · by_cases h : series.length < 2
    · rw [calculate_trend, if_pos h]
      constructor <;> norm_num
    · rw [calculate_trend, if_neg h]
      have hm : (0 : Rat) < max |lsSlope series| 1 :=
        lt_of_lt_of_le one_pos (le_max_right _ _)
      have habs : |lsSlope series / max |lsSlope series| 1| ≤ 1 := by
        rw [abs_div, abs_of_pos hm]
        exact div_le_one_of_le₀ (le_max_left _ _) (le_of_lt hm)
      exact abs_le.mp habs
  · intro h
    rw [calculate_trend, if_pos h]
  · intro h
    rw [calculate_trend, if_neg (by omega)]

/-- C6 (witness): the theorem evaluated on a one-point and a two-point
series. -/
theorem c6_witness :
    calculate_trend ([5] : List Rat) = 0
    ∧ (-1 ≤ calculate_trend ([1, 3] : List Rat)
        ∧ calculate_trend ([1, 3] : List Rat) ≤ 1)
    ∧ calculate_trend ([1, 3] : List Rat)
        = lsSlope ([1, 3] : List Rat) / max |lsSlope ([1, 3] : List Rat)| 1 :=
  ⟨(c6_trend_direction [5]).2.1 (by decide),
   (c6_trend_direction [1, 3]).1,
   (c6_trend_direction [1, 3]).2.2 (by decide)⟩

/-- C8 (counterexample): with an empty enriched table, an invalid metric
string is answered with the no-data response, not the invalid-metric
rejection, so the claim as stated fails at the empty table. -/
theorem c8_counterexample :
    top_assignees [] "not_a_metric" 10 = "No data available"
    ∧ "No data available" ≠ invalidMetricMsg :=
  ⟨rfl, by decide⟩

/-- C8 (amended): when the enriched table is non-empty, every metric
string whose stripped value is outside
`{total_tickets, resolved_tickets, resolution_rate, avg_resolution_time}`
is rejected with the descriptive invalid-metric error, which is distinct
from the no-data response; there is no silent fallback to a default
metric. -/
theorem c8_invalid_metric_rejected (df : List Enriched) (metric : String)
    (limit : Int) (hne : df ≠ []) (hm : pyStrip metric ∉ validMetrics) :
    top_assignees df metric limit = invalidMetricMsg
    ∧ invalidMetricMsg ≠ "No data available" := by
  constructor
  · cases df with
    | nil => exact absurd rfl hne
    | cons a as =>
      have hstats : assignee_stats (a :: as) ≠ [] := assignee_stats_ne_nil (by simp)
      have hie : (assignee_stats (a :: as)).isEmpty = false :=
        List.isEmpty_eq_false.mpr hstats
      simp [top_assignees, get_assignee_analytics, hie, hm]
  · decide

/-- C8 (witness): the amended rejection at a concrete one-ticket table
and the unknown metric string `"by_magic"`. -/
theorem c8_witness :
    top_assignees (calculate_metrics [mkTicket "Done" (some 0) (some 0)]) "by_magic" 10
      = invalidMetricMsg
    ∧ invalidMetricMsg ≠ "No data available" :=
  c8_invalid_metric_rejected (calculate_metrics [mkTicket "Done" (some 0) (some 0)])
    "by_magic" 10 (by decide) (by decide)

end JirAgent
